import Mathlib

/-!
# Native routine registration of `nloptrbundled` (`src/init_nloptr.c`)

The file `init_nloptr.c` consists of one constant table, `CallEntries`, and one
function, `R_init_nloptrbundled`, whose body is a straight-line sequence of 58
calls into R's dynamic-loading interface (`R_ext/Rdynload.h`).

The embedding keeps the two apart:

* the *program* is transcribed statement by statement: `CallEntries` is the
  array initialiser, `R_init_nloptrbundled info` is the list of the calls of the
  body, in textual order, each with its literal arguments;
* the *environment* (the R interface that receives the calls) is a small state
  machine: the table of C-callables and the store of `DllInfo` records.

A function address `&f` is represented by the identifier `f` (type `DL_FUNC`);
two addresses are equal exactly when they name the same function.
-/

namespace Nloptr

/-! ## Function addresses -/

/-- The functions whose address is taken in `init_nloptr.c`: `NLoptR_Optimize`
(declared by `nloptr.h`) and the 55 library functions (declared by `nlopt.h`). -/
inductive DL_FUNC where
  | NLoptR_Optimize
  | nlopt_algorithm_name
  | nlopt_srand
  | nlopt_srand_time
  | nlopt_version
  | nlopt_create
  | nlopt_destroy
  | nlopt_copy
  | nlopt_optimize
  | nlopt_set_min_objective
  | nlopt_set_max_objective
  | nlopt_set_precond_min_objective
  | nlopt_set_precond_max_objective
  | nlopt_get_algorithm
  | nlopt_get_dimension
  | nlopt_set_lower_bounds
  | nlopt_set_lower_bounds1
  | nlopt_get_lower_bounds
  | nlopt_set_upper_bounds
  | nlopt_set_upper_bounds1
  | nlopt_get_upper_bounds
  | nlopt_remove_inequality_constraints
  | nlopt_add_inequality_constraint
  | nlopt_add_precond_inequality_constraint
  | nlopt_add_inequality_mconstraint
  | nlopt_remove_equality_constraints
  | nlopt_add_equality_constraint
  | nlopt_add_precond_equality_constraint
  | nlopt_add_equality_mconstraint
  | nlopt_set_stopval
  | nlopt_get_stopval
  | nlopt_set_ftol_rel
  | nlopt_get_ftol_rel
  | nlopt_set_ftol_abs
  | nlopt_get_ftol_abs
  | nlopt_set_xtol_rel
  | nlopt_get_xtol_rel
  | nlopt_set_xtol_abs1
  | nlopt_set_xtol_abs
  | nlopt_get_xtol_abs
  | nlopt_set_maxeval
  | nlopt_get_maxeval
  | nlopt_set_maxtime
  | nlopt_get_maxtime
  | nlopt_force_stop
  | nlopt_set_force_stop
  | nlopt_get_force_stop
  | nlopt_set_local_optimizer
  | nlopt_set_population
  | nlopt_get_population
  | nlopt_set_vector_storage
  | nlopt_get_vector_storage
  | nlopt_set_default_initial_step
  | nlopt_set_initial_step
  | nlopt_set_initial_step1
  | nlopt_get_initial_step
  deriving DecidableEq, Repr

/-- The C identifier of a function, as a string. -/
def DL_FUNC.ident : DL_FUNC → String
  | .NLoptR_Optimize => "NLoptR_Optimize"
  | .nlopt_algorithm_name => "nlopt_algorithm_name"
  | .nlopt_srand => "nlopt_srand"
  | .nlopt_srand_time => "nlopt_srand_time"
  | .nlopt_version => "nlopt_version"
  | .nlopt_create => "nlopt_create"
  | .nlopt_destroy => "nlopt_destroy"
  | .nlopt_copy => "nlopt_copy"
  | .nlopt_optimize => "nlopt_optimize"
  | .nlopt_set_min_objective => "nlopt_set_min_objective"
  | .nlopt_set_max_objective => "nlopt_set_max_objective"
  | .nlopt_set_precond_min_objective => "nlopt_set_precond_min_objective"
  | .nlopt_set_precond_max_objective => "nlopt_set_precond_max_objective"
  | .nlopt_get_algorithm => "nlopt_get_algorithm"
  | .nlopt_get_dimension => "nlopt_get_dimension"
  | .nlopt_set_lower_bounds => "nlopt_set_lower_bounds"
  | .nlopt_set_lower_bounds1 => "nlopt_set_lower_bounds1"
  | .nlopt_get_lower_bounds => "nlopt_get_lower_bounds"
  | .nlopt_set_upper_bounds => "nlopt_set_upper_bounds"
  | .nlopt_set_upper_bounds1 => "nlopt_set_upper_bounds1"
  | .nlopt_get_upper_bounds => "nlopt_get_upper_bounds"
  | .nlopt_remove_inequality_constraints => "nlopt_remove_inequality_constraints"
  | .nlopt_add_inequality_constraint => "nlopt_add_inequality_constraint"
  | .nlopt_add_precond_inequality_constraint => "nlopt_add_precond_inequality_constraint"
  | .nlopt_add_inequality_mconstraint => "nlopt_add_inequality_mconstraint"
  | .nlopt_remove_equality_constraints => "nlopt_remove_equality_constraints"
  | .nlopt_add_equality_constraint => "nlopt_add_equality_constraint"
  | .nlopt_add_precond_equality_constraint => "nlopt_add_precond_equality_constraint"
  | .nlopt_add_equality_mconstraint => "nlopt_add_equality_mconstraint"
  | .nlopt_set_stopval => "nlopt_set_stopval"
  | .nlopt_get_stopval => "nlopt_get_stopval"
  | .nlopt_set_ftol_rel => "nlopt_set_ftol_rel"
  | .nlopt_get_ftol_rel => "nlopt_get_ftol_rel"
  | .nlopt_set_ftol_abs => "nlopt_set_ftol_abs"
  | .nlopt_get_ftol_abs => "nlopt_get_ftol_abs"
  | .nlopt_set_xtol_rel => "nlopt_set_xtol_rel"
  | .nlopt_get_xtol_rel => "nlopt_get_xtol_rel"
  | .nlopt_set_xtol_abs1 => "nlopt_set_xtol_abs1"
  | .nlopt_set_xtol_abs => "nlopt_set_xtol_abs"
  | .nlopt_get_xtol_abs => "nlopt_get_xtol_abs"
  | .nlopt_set_maxeval => "nlopt_set_maxeval"
  | .nlopt_get_maxeval => "nlopt_get_maxeval"
  | .nlopt_set_maxtime => "nlopt_set_maxtime"
  | .nlopt_get_maxtime => "nlopt_get_maxtime"
  | .nlopt_force_stop => "nlopt_force_stop"
  | .nlopt_set_force_stop => "nlopt_set_force_stop"
  | .nlopt_get_force_stop => "nlopt_get_force_stop"
  | .nlopt_set_local_optimizer => "nlopt_set_local_optimizer"
  | .nlopt_set_population => "nlopt_set_population"
  | .nlopt_get_population => "nlopt_get_population"
  | .nlopt_set_vector_storage => "nlopt_set_vector_storage"
  | .nlopt_get_vector_storage => "nlopt_get_vector_storage"
  | .nlopt_set_default_initial_step => "nlopt_set_default_initial_step"
  | .nlopt_set_initial_step => "nlopt_set_initial_step"
  | .nlopt_set_initial_step1 => "nlopt_set_initial_step1"
  | .nlopt_get_initial_step => "nlopt_get_initial_step"

/-! ## Routine tables (`R_ext/Rdynload.h`) -/

/-- An element of a `.Call` routine table, `R_CallMethodDef`: `{name, fun, numArgs}`.
A `NULL` pointer is `none`. -/
structure R_CallMethodDef where
  name : Option String
  fun_ : Option DL_FUNC
  numArgs : Int
  deriving DecidableEq, Repr

/-- `typedef R_CallMethodDef R_ExternalMethodDef;` -/
abbrev R_ExternalMethodDef := R_CallMethodDef

/-- An element of a `.C` routine table, `R_CMethodDef`: `{name, fun, numArgs, types}`. -/
structure R_CMethodDef where
  name : Option String
  fun_ : Option DL_FUNC
  numArgs : Int
  types : Option (List Nat)
  deriving DecidableEq, Repr

/-- `typedef R_CMethodDef R_FortranMethodDef;` -/
abbrev R_FortranMethodDef := R_CMethodDef

/-- The table of `init_nloptr.c`, lines 43-46:
```
static const R_CallMethodDef CallEntries[] = {
  {"NLoptR_Optimize",    (DL_FUNC) &NLoptR_Optimize,    1},
  {NULL, NULL, 0}
};
``` -/
def CallEntries : List R_CallMethodDef :=
  [ { name := some "NLoptR_Optimize", fun_ := some DL_FUNC.NLoptR_Optimize, numArgs := 1 },
    { name := none, fun_ := none, numArgs := 0 } ]

/-! ## Calls into the R interface -/

/-- A `DllInfo *`: the address of a library record kept by R. R calls
`R_init_nloptrbundled` with the address of the record of the library it has just loaded,
so every address stands for a record. -/
abbrev DllInfoPtr := Nat

/-- The calls `init_nloptr.c` makes, with their arguments. A `NULL` table is `none`. -/
inductive RCall where
  | RegisterCCallable (package name : String) (fptr : DL_FUNC)
  | registerRoutines (info : DllInfoPtr)
      (croutines : Option (List R_CMethodDef))
      (callRoutines : Option (List R_CallMethodDef))
      (fortranRoutines : Option (List R_FortranMethodDef))
      (externalRoutines : Option (List R_ExternalMethodDef))
  | useDynamicSymbols (info : DllInfoPtr) (value : Bool)
  | forceSymbols (info : DllInfoPtr) (value : Bool)
  deriving DecidableEq, Repr

/-- The body of `void R_init_nloptrbundled(DllInfo *info)`, lines 48-114, one element per
statement, in textual order. -/
def R_init_nloptrbundled (info : DllInfoPtr) : List RCall :=
  [
    .RegisterCCallable "nloptrbundled" "nlopt_algorithm_name" .nlopt_algorithm_name,
    .RegisterCCallable "nloptrbundled" "nlopt_srand" .nlopt_srand,
    .RegisterCCallable "nloptrbundled" "nlopt_srand_time" .nlopt_srand_time,
    .RegisterCCallable "nloptrbundled" "nlopt_version" .nlopt_version,
    .RegisterCCallable "nloptrbundled" "nlopt_create" .nlopt_create,
    .RegisterCCallable "nloptrbundled" "nlopt_destroy" .nlopt_destroy,
    .RegisterCCallable "nloptrbundled" "nlopt_copy" .nlopt_copy,
    .RegisterCCallable "nloptrbundled" "nlopt_optimize" .nlopt_optimize,
    .RegisterCCallable "nloptrbundled" "nlopt_set_min_objective" .nlopt_set_min_objective,
    .RegisterCCallable "nloptrbundled" "nlopt_set_max_objective" .nlopt_set_max_objective,
    .RegisterCCallable "nloptrbundled" "nlopt_set_precond_min_objective" .nlopt_set_precond_min_objective,
    .RegisterCCallable "nloptrbundled" "nlopt_set_precond_max_objective" .nlopt_set_precond_max_objective,
    .RegisterCCallable "nloptrbundled" "nlopt_get_algorithm" .nlopt_get_algorithm,
    .RegisterCCallable "nloptrbundled" "nlopt_get_dimension" .nlopt_get_dimension,
    .RegisterCCallable "nloptrbundled" "nlopt_set_lower_bounds" .nlopt_set_lower_bounds,
    .RegisterCCallable "nloptrbundled" "nlopt_set_lower_bounds1" .nlopt_set_lower_bounds1,
    .RegisterCCallable "nloptrbundled" "nlopt_get_lower_bounds" .nlopt_get_lower_bounds,
    .RegisterCCallable "nloptrbundled" "nlopt_set_upper_bounds" .nlopt_set_upper_bounds,
    .RegisterCCallable "nloptrbundled" "nlopt_set_upper_bounds1" .nlopt_set_upper_bounds1,
    .RegisterCCallable "nloptrbundled" "nlopt_get_upper_bounds" .nlopt_get_upper_bounds,
    .RegisterCCallable "nloptrbundled" "nlopt_remove_inequality_constraints" .nlopt_remove_inequality_constraints,
    .RegisterCCallable "nloptrbundled" "nlopt_add_inequality_constraint" .nlopt_add_inequality_constraint,
    .RegisterCCallable "nloptrbundled" "nlopt_add_precond_inequality_constraint" .nlopt_add_precond_inequality_constraint,
    .RegisterCCallable "nloptrbundled" "nlopt_add_inequality_mconstraint" .nlopt_add_inequality_mconstraint,
    .RegisterCCallable "nloptrbundled" "nlopt_remove_equality_constraints" .nlopt_remove_equality_constraints,
    .RegisterCCallable "nloptrbundled" "nlopt_add_equality_constraint" .nlopt_add_equality_constraint,
    .RegisterCCallable "nloptrbundled" "nlopt_add_precond_equality_constraint" .nlopt_add_precond_equality_constraint,
    .RegisterCCallable "nloptrbundled" "nlopt_add_equality_mconstraint" .nlopt_add_equality_mconstraint,
    .RegisterCCallable "nloptrbundled" "nlopt_set_stopval" .nlopt_set_stopval,
    .RegisterCCallable "nloptrbundled" "nlopt_get_stopval" .nlopt_get_stopval,
    .RegisterCCallable "nloptrbundled" "nlopt_set_ftol_rel" .nlopt_set_ftol_rel,
    .RegisterCCallable "nloptrbundled" "nlopt_get_ftol_rel" .nlopt_get_ftol_rel,
    .RegisterCCallable "nloptrbundled" "nlopt_set_ftol_abs" .nlopt_set_ftol_abs,
    .RegisterCCallable "nloptrbundled" "nlopt_get_ftol_abs" .nlopt_get_ftol_abs,
    .RegisterCCallable "nloptrbundled" "nlopt_set_xtol_rel" .nlopt_set_xtol_rel,
    .RegisterCCallable "nloptrbundled" "nlopt_get_xtol_rel" .nlopt_get_xtol_rel,
    .RegisterCCallable "nloptrbundled" "nlopt_set_xtol_abs1" .nlopt_set_xtol_abs1,
    .RegisterCCallable "nloptrbundled" "nlopt_set_xtol_abs" .nlopt_set_xtol_abs,
    .RegisterCCallable "nloptrbundled" "nlopt_get_xtol_abs" .nlopt_get_xtol_abs,
    .RegisterCCallable "nloptrbundled" "nlopt_set_maxeval" .nlopt_set_maxeval,
    .RegisterCCallable "nloptrbundled" "nlopt_get_maxeval" .nlopt_get_maxeval,
    .RegisterCCallable "nloptrbundled" "nlopt_set_maxtime" .nlopt_set_maxtime,
    .RegisterCCallable "nloptrbundled" "nlopt_get_maxtime" .nlopt_get_maxtime,
    .RegisterCCallable "nloptrbundled" "nlopt_force_stop" .nlopt_force_stop,
    .RegisterCCallable "nloptrbundled" "nlopt_set_force_stop" .nlopt_set_force_stop,
    .RegisterCCallable "nloptrbundled" "nlopt_get_force_stop" .nlopt_get_force_stop,
    .RegisterCCallable "nloptrbundled" "nlopt_set_local_optimizer" .nlopt_set_local_optimizer,
    .RegisterCCallable "nloptrbundled" "nlopt_set_population" .nlopt_set_population,
    .RegisterCCallable "nloptrbundled" "nlopt_get_population" .nlopt_get_population,
    .RegisterCCallable "nloptrbundled" "nlopt_set_vector_storage" .nlopt_set_vector_storage,
    .RegisterCCallable "nloptrbundled" "nlopt_get_vector_storage" .nlopt_get_vector_storage,
    .RegisterCCallable "nloptrbundled" "nlopt_set_default_initial_step" .nlopt_set_default_initial_step,
    .RegisterCCallable "nloptrbundled" "nlopt_set_initial_step" .nlopt_set_initial_step,
    .RegisterCCallable "nloptrbundled" "nlopt_set_initial_step1" .nlopt_set_initial_step1,
    .RegisterCCallable "nloptrbundled" "nlopt_get_initial_step" .nlopt_get_initial_step,
    .registerRoutines info none (some CallEntries) none none,
    .useDynamicSymbols info false,
    .forceSymbols info true
  ]

/-! ## The R side of the interface

R itself is not part of the package. Its behaviour is described here as far as
the calls above depend on it, following `Rdynload.c`/`Rdynpriv.h` of R. -/

/-- A registered `.Call` symbol, `Rf_DotCallSymbol`. -/
structure Rf_DotCallSymbol where
  name : String
  fun_ : Option DL_FUNC
  numArgs : Int
  deriving DecidableEq, Repr

/-- A registered `.C` symbol, `Rf_DotCSymbol`. -/
structure Rf_DotCSymbol where
  name : String
  fun_ : Option DL_FUNC
  numArgs : Int
  types : Option (List Nat)
  deriving DecidableEq, Repr

/-- The record `struct _DllInfo`. The counters `numCSymbols`, ... are the lengths of
the symbol lists. -/
structure DllInfo where
  path : String
  name : String
  handle : Option Nat
  useDynamicSymbols : Bool
  CSymbols : List Rf_DotCSymbol
  CallSymbols : List Rf_DotCallSymbol
  FortranSymbols : List Rf_DotCSymbol
  ExternalSymbols : List Rf_DotCallSymbol
  forceSymbols : Bool
  deriving DecidableEq, Repr

/-- One binding of the C-callable table: package, name, address. -/
abbrev CCallable := String × String × DL_FUNC

/-- What the calls act on: the C-callable bindings (the most recent first) and the
library records. -/
structure RState where
  CCallables : List CCallable
  dll : DllInfoPtr → DllInfo

/-- `R_RegisterCCallable(package, name, fptr)`: binds `name` in the table of
`package`; a later binding of the same name hides an earlier one. -/
def R_RegisterCCallable (package name : String) (fptr : DL_FUNC) (s : RState) : RState :=
  { s with CCallables := (package, name, fptr) :: s.CCallables }

/-- `R_GetCCallable(package, name)`: the address bound to `name` in the table of
`package`, `none` where R raises "function not provided by package". -/
def R_GetCCallable (package name : String) (s : RState) : Option DL_FUNC :=
  (s.CCallables.find? (fun e => e.1 == package && e.2.1 == name)).map (fun e => e.2.2)

/-- The entries of a `.Call` table before its terminating `{NULL, NULL, 0}`, as the loop
`for(num = 0; callRoutines[num].name != NULL; num++)` finds them; `none` when the
array holds no entry with a `NULL` name (the loop would leave the array). -/
def callTableEntries : List R_CallMethodDef → Option (List R_CallMethodDef)
  | [] => none
  | e :: es =>
    match e.name with
    | none => some []
    | some _ =>
      match callTableEntries es with
      | some r => some (e :: r)
      | none => none

/-- The same scan for a `.C` or `.Fortran` table. -/
def cTableEntries : List R_CMethodDef → Option (List R_CMethodDef)
  | [] => none
  | e :: es =>
    match e.name with
    | none => some []
    | some _ =>
      match cTableEntries es with
      | some r => some (e :: r)
      | none => none

/-- `R_addCallRoutine`: copies one table entry into a symbol. -/
def R_addCallRoutine (e : R_CallMethodDef) : Rf_DotCallSymbol :=
  { name := e.name.getD "", fun_ := e.fun_, numArgs := if e.numArgs > -1 then e.numArgs else -1 }

/-- `R_addCRoutine`: copies one table entry into a symbol. -/
def R_addCRoutine (e : R_CMethodDef) : Rf_DotCSymbol :=
  { name := e.name.getD "", fun_ := e.fun_,
    numArgs := if e.numArgs > -1 then e.numArgs else -1, types := e.types }

/-- `R_registerRoutines` on one record: the two lookup flags are reset to their
defaults, then every table that is not `NULL` replaces the symbols of its kind. -/
def registerRoutinesOn (d : DllInfo)
    (croutines : Option (List R_CMethodDef))
    (callRoutines : Option (List R_CallMethodDef))
    (fortranRoutines : Option (List R_FortranMethodDef))
    (externalRoutines : Option (List R_ExternalMethodDef)) : Option DllInfo :=
  let d0 := { d with useDynamicSymbols := d.handle.isSome, forceSymbols := false }
  let d1 : Option DllInfo :=
    match croutines with
    | none => some d0
    | some t => (cTableEntries t).map (fun es => { d0 with CSymbols := es.map R_addCRoutine })
  let d2 : Option DllInfo :=
    match d1, fortranRoutines with
    | none, _ => none
    | some d, none => some d
    | some d, some t =>
      (cTableEntries t).map (fun es => { d with FortranSymbols := es.map R_addCRoutine })
  let d3 : Option DllInfo :=
    match d2, callRoutines with
    | none, _ => none
    | some d, none => some d
    | some d, some t =>
      (callTableEntries t).map (fun es => { d with CallSymbols := es.map R_addCallRoutine })
  match d3, externalRoutines with
  | none, _ => none
  | some d, none => some d
  | some d, some t =>
    (callTableEntries t).map (fun es => { d with ExternalSymbols := es.map R_addCallRoutine })

/-- Replaces the record at one address. -/
def setDll (m : DllInfoPtr → DllInfo) (info : DllInfoPtr) (d : DllInfo) : DllInfoPtr → DllInfo :=
  fun p => if p = info then d else m p

/-- The effect of one call; `none` when the call reads outside a table. -/
def exec : RCall → RState → Option RState
  | .RegisterCCallable package name fptr, s => some (R_RegisterCCallable package name fptr s)
  | .registerRoutines info c call f e, s =>
    match registerRoutinesOn (s.dll info) c call f e with
    | some d => some { s with dll := setDll s.dll info d }
    | none => none
  | .useDynamicSymbols info value, s =>
    some { s with dll := setDll s.dll info { s.dll info with useDynamicSymbols := value } }
  | .forceSymbols info value, s =>
    some { s with dll := setDll s.dll info { s.dll info with forceSymbols := value } }

/-- The effect of a sequence of calls, from left to right. -/
def run : List RCall → RState → Option RState
  | [], s => some s
  | c :: cs, s =>
    match exec c s with
    | some s1 => run cs s1
    | none => none

/-- Lookup of a `.Call` routine by name among the registered symbols of a record
(`R_getDLLRegisteredSymbol` for `.Call`): the first symbol with that name. -/
def lookupCallSymbol (d : DllInfo) (name : String) : Option Rf_DotCallSymbol :=
  d.CallSymbols.find? (fun sym => sym.name == name)

/-! ## Names -/

/-- The C-callable bindings the function asks for, in textual order. -/
def RCall.binding : RCall → Option CCallable
  | .RegisterCCallable package name fptr => some (package, name, fptr)
  | _ => none

/-- The bindings requested by `R_init_nloptrbundled`, in textual order. -/
def registered (info : DllInfoPtr) : List CCallable :=
  (R_init_nloptrbundled info).filterMap RCall.binding

/-- The names requested by `R_init_nloptrbundled`, in textual order. -/
def registeredNames (info : DllInfoPtr) : List String :=
  (registered info).map (fun e => e.2.1)

/-- Whether `s` begins with `p`. -/
def startsWith (p s : String) : Bool :=
  p.toList.isPrefixOf s.toList

/-- Whether `pat` occurs in `cs` as a block of consecutive characters. -/
def occursIn (pat : List Char) : List Char → Bool
  | [] => pat.isEmpty
  | c :: cs => pat.isPrefixOf (c :: cs) || occursIn pat cs

/-- Whether the name `s` mentions `pat`. -/
def mentions (pat s : String) : Bool :=
  occursIn pat.toList s.toList

/-- Whether `s` ends with `p`. -/
def endsWith (p s : String) : Bool :=
  p.toList.reverse.isPrefixOf s.toList.reverse

/-- Replaces the leftmost occurrence of `pat` by `rep`. -/
def renameIn (pat rep : List Char) : List Char → List Char
  | [] => []
  | c :: cs =>
    if pat.isPrefixOf (c :: cs) then rep ++ (c :: cs).drop pat.length
    else c :: renameIn pat rep cs

/-- The name `s` with its leftmost `pat` renamed to `rep`. -/
def rename (pat rep s : String) : String :=
  String.mk (renameIn pat.toList rep.toList s.toList)

/-- The record after the three closing calls: the symbols of `CallEntries` and the two
flags are set, every other field is the one of `d`. -/
def lockedDown (d : DllInfo) : DllInfo :=
  { d with
    CallSymbols :=
      [{ name := "NLoptR_Optimize", fun_ := some DL_FUNC.NLoptR_Optimize, numArgs := 1 }],
    useDynamicSymbols := false,
    forceSymbols := true }

/-! ## Configuration items -/

/-- The configuration items named in §3 and §6 of the specification, by the word used for
them in the library (`X` in `nlopt_set_X`), with a mark on the two kinds of constraint,
which are added rather than set. -/
def configItems : List (String × Bool) :=
  [ ("lower_bounds", false), ("upper_bounds", false),
    ("stopval", false), ("ftol_rel", false), ("ftol_abs", false),
    ("xtol_rel", false), ("xtol_abs", false),
    ("inequality_constraint", true), ("equality_constraint", true),
    ("population", false),
    ("initial_step", false),
    ("local_optimizer", false) ]

/-- The name of the setter of an item: `nlopt_add_X` for a constraint, `nlopt_set_X` otherwise. -/
def setterName (item : String × Bool) : String :=
  (if item.2 then "nlopt_add_" else "nlopt_set_") ++ item.1

/-- The name of the getter of an item: `nlopt_get_X`. -/
def getterName (item : String × Bool) : String :=
  "nlopt_get_" ++ item.1

/-- The four settings held per component, which have a vector setter `nlopt_set_X` next to
a setter `nlopt_set_X1` that takes one scalar for all components. -/
def perComponentSettings : List String :=
  ["lower_bounds", "upper_bounds", "xtol_abs", "initial_step"]

/-! ## Stopping criteria

The iteration loop behind `nlopt_optimize` is not in `init_nloptr.c`, which only takes the
address of the function (line 58). The controller below follows §4.4 of the
specification. -/

/-- Modelled from the spec: the termination reasons of §4.4 (the result codes of
`nlopt_optimize` are declared outside `src/`). -/
inductive StopReason where
  | ForcedStop
  | StopvalReached
  | FtolReached
  | XtolReached
  | MaxevalReached
  | MaxtimeReached
  | Failure
  | RoundoffLimited
  deriving DecidableEq, Repr, Fintype

/-- Modelled from the spec: the two kinds of internal failure of item 7 of §4.4,
"algorithm-specific internal failure → `Failure` or `RoundoffLimited`". -/
inductive Breakdown where
  | generic
  | roundoff
  deriving DecidableEq, Repr, Fintype

/-- Modelled from the spec: the quantities the stopping-criteria controller of §4.4 reads
after a completed iteration (the loop of `nlopt_optimize` is missing from `src/`). Real
numbers are rationals here. -/
structure IterationState where
  force_stop : Bool
  maximize : Bool
  value : ℚ
  stopval : ℚ
  f_change_rel : ℚ
  f_change_abs : ℚ
  ftol_rel : ℚ
  ftol_abs : ℚ
  x_change_rel : ℚ
  x_change_abs : List ℚ
  xtol_rel : ℚ
  xtol_abs : List ℚ
  evaluations : Nat
  maxeval : Nat
  elapsed : ℚ
  maxtime : ℚ
  breakdown : Option Breakdown

/-- Modelled from the spec: item 2 of §4.4, "objective value reaches or passes `stopval`
(respecting minimize/maximize direction)". -/
def stopvalReached (s : IterationState) : Bool :=
  if s.maximize then decide (s.stopval ≤ s.value) else decide (s.value ≤ s.stopval)

/-- Modelled from the spec: item 3 of §4.4, "relative or absolute function-value change
below `ftol_rel`/`ftol_abs`". -/
def ftolReached (s : IterationState) : Bool :=
  decide (s.f_change_rel < s.ftol_rel) || decide (s.f_change_abs < s.ftol_abs)

/-- Modelled from the spec: the per-component part of item 4 of §4.4; every component of
the first vector is below the same component of the second. -/
def componentsBelow : List ℚ → List ℚ → Bool
  | [], [] => true
  | a :: as, b :: bs => decide (a < b) && componentsBelow as bs
  | _, _ => false

/-- Modelled from the spec: item 4 of §4.4, "relative or absolute parameter-vector change
below `xtol_rel`/per-component `xtol_abs`". -/
def xtolReached (s : IterationState) : Bool :=
  decide (s.x_change_rel < s.xtol_rel) || componentsBelow s.x_change_abs s.xtol_abs

/-- Modelled from the spec: item 5 of §4.4, "evaluation count ≥ `maxeval` (if maxeval > 0)". -/
def maxevalReached (s : IterationState) : Bool :=
  decide (0 < s.maxeval) && decide (s.maxeval ≤ s.evaluations)

/-- Modelled from the spec: item 6 of §4.4, "elapsed wall time ≥ `maxtime` (if maxtime > 0)". -/
def maxtimeReached (s : IterationState) : Bool :=
  decide (0 < s.maxtime) && decide (s.maxtime ≤ s.elapsed)

/-- Modelled from the spec: the stopping-criteria controller of §4.4 (the loop of
`nlopt_optimize` is missing from `src/`): the conditions are tried in the order of the
list of §4.4 and the first that holds gives the reason; `none` when the run goes on. -/
def stoppingCriteria (s : IterationState) : Option StopReason :=
  if s.force_stop then some StopReason.ForcedStop
  else if stopvalReached s then some StopReason.StopvalReached
  else if ftolReached s then some StopReason.FtolReached
  else if xtolReached s then some StopReason.XtolReached
  else if maxevalReached s then some StopReason.MaxevalReached
  else if maxtimeReached s then some StopReason.MaxtimeReached
  else
    match s.breakdown with
    | some Breakdown.generic => some StopReason.Failure
    | some Breakdown.roundoff => some StopReason.RoundoffLimited
    | none => none

/-- The condition of §4.4 that belongs to a reason. -/
def conditionHolds (s : IterationState) : StopReason → Bool
  | .ForcedStop => s.force_stop
  | .StopvalReached => stopvalReached s
  | .FtolReached => ftolReached s
  | .XtolReached => xtolReached s
  | .MaxevalReached => maxevalReached s
  | .MaxtimeReached => maxtimeReached s
  | .Failure => decide (s.breakdown = some Breakdown.generic)
  | .RoundoffLimited => decide (s.breakdown = some Breakdown.roundoff)

/-- The place of a reason in the list of §4.4 (`Failure` and `RoundoffLimited` share item 7). -/
def priority : StopReason → Nat
  | .ForcedStop => 1
  | .StopvalReached => 2
  | .FtolReached => 3
  | .XtolReached => 4
  | .MaxevalReached => 5
  | .MaxtimeReached => 6
  | .Failure => 7
  | .RoundoffLimited => 7

/-- The first-match rule on the bare outcomes of the seven tests. -/
def firstMatch (b1 b2 b3 b4 b5 b6 : Bool) (bd : Option Breakdown) : Option StopReason :=
  if b1 then some StopReason.ForcedStop
  else if b2 then some StopReason.StopvalReached
  else if b3 then some StopReason.FtolReached
  else if b4 then some StopReason.XtolReached
  else if b5 then some StopReason.MaxevalReached
  else if b6 then some StopReason.MaxtimeReached
  else
    match bd with
    | some Breakdown.generic => some StopReason.Failure
    | some Breakdown.roundoff => some StopReason.RoundoffLimited
    | none => none

/-- The outcome of the test that belongs to a reason, on the bare outcomes. -/
def outcome (b1 b2 b3 b4 b5 b6 : Bool) (bd : Option Breakdown) : StopReason → Bool
  | .ForcedStop => b1
  | .StopvalReached => b2
  | .FtolReached => b3
  | .XtolReached => b4
  | .MaxevalReached => b5
  | .MaxtimeReached => b6
  | .Failure => decide (bd = some Breakdown.generic)
  | .RoundoffLimited => decide (bd = some Breakdown.roundoff)

/-! ## Facts shared by the theorems -/

theorem registered_eq (info : DllInfoPtr) : registered info = registered 0 := rfl

theorem registeredNames_eq (info : DllInfoPtr) : registeredNames info = registeredNames 0 := rfl

theorem setDll_same (m : DllInfoPtr → DllInfo) (info : DllInfoPtr) (d : DllInfo) :
    setDll m info d info = d := by
  simp [setDll]

theorem setDll_other (m : DllInfoPtr → DllInfo) (info p : DllInfoPtr) (d : DllInfo)
    (h : p ≠ info) : setDll m info d p = m p := by
  simp [setDll, h]

theorem setDll_setDll (m : DllInfoPtr → DllInfo) (info : DllInfoPtr) (a b : DllInfo) :
    setDll (setDll m info a) info b = setDll m info b := by
  funext p
  simp only [setDll]
  split <;> rfl

/-- The state `R_init_nloptrbundled` leaves: the function returns from every state. -/
theorem run_init (info : DllInfoPtr) (s : RState) :
    run (R_init_nloptrbundled info) s =
      some { CCallables := (registered info).reverse ++ s.CCallables,
             dll := setDll s.dll info (lockedDown (s.dll info)) } := by
  simp only [R_init_nloptrbundled, run, exec, R_RegisterCCallable, registerRoutinesOn,
    CallEntries, callTableEntries, setDll_setDll, setDll_same, Option.map, List.map,
    R_addCallRoutine]
  rfl

/-- Each requested binding is the one found under its name, whatever was bound before. -/
theorem find_registered (e : CCallable) (h : e ∈ registered 0) (t : List CCallable) :
    ((registered 0).reverse ++ t).find? (fun x => x.1 == e.1 && x.2.1 == e.2.1) = some e := by
  have key : ∀ e ∈ registered 0,
      (registered 0).reverse.find? (fun x => x.1 == e.1 && x.2.1 == e.2.1) = some e := by
    decide
  rw [List.find?_append, key e h]
  rfl

/-- After `R_init_nloptrbundled`, each requested name resolves to the address given with it. -/
theorem getCCallable_registered (info : DllInfoPtr) (s s1 : RState)
    (hrun : run (R_init_nloptrbundled info) s = some s1)
    (e : CCallable) (h : e ∈ registered 0) :
    R_GetCCallable e.1 e.2.1 s1 = some e.2.2 := by
  rw [run_init] at hrun
  cases hrun
  simp only [R_GetCCallable, registered_eq info]
  rw [find_registered e h]
  rfl

/-- Every requested binding carries a name that starts with "nlopt_"; the routine
`NLoptR_Optimize` of the `.Call` table is not among the names nor among the functions. -/
theorem registered_are_library_names (info : DllInfoPtr) :
    (∀ e ∈ registered info, e.1 = "nloptrbundled" ∧ startsWith "nlopt_" e.2.1 = true ∧
      e.2.2 ≠ DL_FUNC.NLoptR_Optimize) ∧
    "NLoptR_Optimize" ∉ registeredNames info := by
  rw [registered_eq info, registeredNames_eq info]
  decide

/-- The first-match rule reports a reason exactly when its test succeeds and no test
earlier in the list does. -/
theorem firstMatch_spec :
    ∀ (b1 b2 b3 b4 b5 b6 : Bool) (bd : Option Breakdown) (r : StopReason),
      firstMatch b1 b2 b3 b4 b5 b6 bd = some r ↔
        (outcome b1 b2 b3 b4 b5 b6 bd r = true ∧
          ∀ q : StopReason, outcome b1 b2 b3 b4 b5 b6 bd q = true → priority r ≤ priority q) := by
  decide

/-- The first-match rule reports nothing exactly when no test succeeds. -/
theorem firstMatch_none :
    ∀ (b1 b2 b3 b4 b5 b6 : Bool) (bd : Option Breakdown),
      firstMatch b1 b2 b3 b4 b5 b6 bd = none ↔
        ∀ q : StopReason, outcome b1 b2 b3 b4 b5 b6 bd q = false := by
  decide

/-! ## The `.Call` table -/

/-- C1: the `.Call` table `CallEntries` handed to `R_registerRoutines` has exactly one entry
other than the `{NULL, NULL, 0}` sentinel, named "NLoptR_Optimize", with function
`NLoptR_Optimize` and one declared argument, and the sentinel ends it; after
`R_init_nloptrbundled` the `.Call` symbols of the library are that one routine, so a
lookup through the table only ever yields `NLoptR_Optimize`, no name that starts with
"nlopt_" resolves, and no library function (identifier starting with "nlopt_") is the
function of a symbol. -/
theorem C1_call_table_single_entry (info : DllInfoPtr) (s : RState) :
    RCall.registerRoutines info none (some CallEntries) none none ∈ R_init_nloptrbundled info ∧
    CallEntries.filter (fun e => decide (e ≠ { name := none, fun_ := none, numArgs := 0 })) =
      [{ name := some "NLoptR_Optimize", fun_ := some DL_FUNC.NLoptR_Optimize, numArgs := 1 }] ∧
    CallEntries.getLast? = some { name := none, fun_ := none, numArgs := 0 } ∧
    callTableEntries CallEntries =
      some [{ name := some "NLoptR_Optimize", fun_ := some DL_FUNC.NLoptR_Optimize,
              numArgs := 1 }] ∧
    ∃ s1, run (R_init_nloptrbundled info) s = some s1 ∧
      (s1.dll info).CallSymbols =
        [{ name := "NLoptR_Optimize", fun_ := some DL_FUNC.NLoptR_Optimize, numArgs := 1 }] ∧
      (∀ name sym, lookupCallSymbol (s1.dll info) name = some sym →
        name = "NLoptR_Optimize" ∧ sym.fun_ = some DL_FUNC.NLoptR_Optimize ∧ sym.numArgs = 1) ∧
      (∀ name, startsWith "nlopt_" name = true → lookupCallSymbol (s1.dll info) name = none) ∧
      (∀ f : DL_FUNC, startsWith "nlopt_" f.ident = true →
        ∀ sym ∈ (s1.dll info).CallSymbols, sym.fun_ ≠ some f) := by
  refine ⟨?_, by decide, by decide, by decide, _, run_init info s, ?_, ?_, ?_, ?_⟩
  · simp [R_init_nloptrbundled]
  · simp [setDll_same, lockedDown]
  · intro name sym h
    simp only [setDll_same, lockedDown, lookupCallSymbol, List.find?] at h
    by_cases hn : ("NLoptR_Optimize" == name) = true
    · simp only [hn] at h
      cases h
      exact ⟨(beq_iff_eq.mp hn).symm, rfl, rfl⟩
    · simp [hn] at h
  · intro name hname
    simp only [setDll_same, lockedDown, lookupCallSymbol, List.find?]
    by_cases hn : ("NLoptR_Optimize" == name) = true
    · have : name = "NLoptR_Optimize" := (beq_iff_eq.mp hn).symm
      subst this
      exact absurd hname (by decide)
    · simp [hn]
  · intro f hf sym hsym
    simp only [setDll_same, lockedDown, List.mem_singleton] at hsym
    subst hsym
    intro hfun
    cases hfun
    exact absurd hf (by decide)

/-! ## The C-callables -/

/-- C2: after `R_init_nloptrbundled` has run, from any state, each operation of the external
interface is a C-callable of package "nloptrbundled": the lookups of `nlopt_create`,
`nlopt_destroy`, `nlopt_optimize`, `nlopt_set_min_objective`, `nlopt_set_max_objective`,
`nlopt_add_inequality_constraint` and `nlopt_add_equality_constraint` succeed and return the
library function of the same name. -/
theorem C2_external_interface_published (info : DllInfoPtr) (s : RState) :
    ∃ s1, run (R_init_nloptrbundled info) s = some s1 ∧
      R_GetCCallable "nloptrbundled" "nlopt_create" s1 = some DL_FUNC.nlopt_create ∧
      R_GetCCallable "nloptrbundled" "nlopt_destroy" s1 = some DL_FUNC.nlopt_destroy ∧
      R_GetCCallable "nloptrbundled" "nlopt_optimize" s1 = some DL_FUNC.nlopt_optimize ∧
      R_GetCCallable "nloptrbundled" "nlopt_set_min_objective" s1 =
        some DL_FUNC.nlopt_set_min_objective ∧
      R_GetCCallable "nloptrbundled" "nlopt_set_max_objective" s1 =
        some DL_FUNC.nlopt_set_max_objective ∧
      R_GetCCallable "nloptrbundled" "nlopt_add_inequality_constraint" s1 =
        some DL_FUNC.nlopt_add_inequality_constraint ∧
      R_GetCCallable "nloptrbundled" "nlopt_add_equality_constraint" s1 =
        some DL_FUNC.nlopt_add_equality_constraint ∧
      (∀ n ∈ ["nlopt_create", "nlopt_destroy", "nlopt_optimize", "nlopt_set_min_objective",
              "nlopt_set_max_objective", "nlopt_add_inequality_constraint",
              "nlopt_add_equality_constraint"],
        ∃ f : DL_FUNC, R_GetCCallable "nloptrbundled" n s1 = some f ∧ f.ident = n) := by
  have hrun := run_init info s
  have get := getCCallable_registered info s _ hrun
  have h1 := get ("nloptrbundled", "nlopt_create", DL_FUNC.nlopt_create) (by decide)
  have h2 := get ("nloptrbundled", "nlopt_destroy", DL_FUNC.nlopt_destroy) (by decide)
  have h3 := get ("nloptrbundled", "nlopt_optimize", DL_FUNC.nlopt_optimize) (by decide)
  have h4 := get ("nloptrbundled", "nlopt_set_min_objective", DL_FUNC.nlopt_set_min_objective)
    (by decide)
  have h5 := get ("nloptrbundled", "nlopt_set_max_objective", DL_FUNC.nlopt_set_max_objective)
    (by decide)
  have h6 := get ("nloptrbundled", "nlopt_add_inequality_constraint",
    DL_FUNC.nlopt_add_inequality_constraint) (by decide)
  have h7 := get ("nloptrbundled", "nlopt_add_equality_constraint",
    DL_FUNC.nlopt_add_equality_constraint) (by decide)
  refine ⟨_, hrun, h1, h2, h3, h4, h5, h6, h7, ?_⟩
  intro n hn
  simp only [List.mem_cons, List.mem_singleton, List.not_mem_nil, or_false] at hn
  rcases hn with rfl | rfl | rfl | rfl | rfl | rfl | rfl
  · exact ⟨_, h1, rfl⟩
  · exact ⟨_, h2, rfl⟩
  · exact ⟨_, h3, rfl⟩
  · exact ⟨_, h4, rfl⟩
  · exact ⟨_, h5, rfl⟩
  · exact ⟨_, h6, rfl⟩
  · exact ⟨_, h7, rfl⟩

/-- C9: the C-callable table built by `R_init_nloptrbundled` is a one-to-one map: the function
makes 55 calls of `R_RegisterCCallable`, each with package "nloptrbundled" and with a name
equal to the identifier of the function whose address it passes; the 55 names are pairwise
distinct and so are the 55 functions; hence no call hides another, and after the function
has run, from any state, the lookup of each registered name returns the function of that
name. -/
theorem C9_registry_one_to_one (info : DllInfoPtr) (s : RState) :
    (registered info).length = 55 ∧
    (∀ e ∈ registered info, e.1 = "nloptrbundled" ∧ e.2.1 = e.2.2.ident) ∧
    (registeredNames info).Nodup ∧
    ((registered info).map (fun e => e.2.2)).Nodup ∧
    ∃ s1, run (R_init_nloptrbundled info) s = some s1 ∧
      (∀ e ∈ registered info, R_GetCCallable e.1 e.2.1 s1 = some e.2.2) ∧
      (∀ n ∈ registeredNames info,
        ∃ f : DL_FUNC, R_GetCCallable "nloptrbundled" n s1 = some f ∧ f.ident = n) := by
  have hrun := run_init info s
  have hid : ∀ e ∈ registered 0, e.1 = "nloptrbundled" ∧ e.2.1 = e.2.2.ident := by decide
  rw [registeredNames_eq info]
  refine ⟨rfl, ?_, by decide, ?_, _, hrun, ?_, ?_⟩
  · rw [registered_eq info]
    exact hid
  · rw [registered_eq info]
    decide
  · intro e he
    rw [registered_eq info] at he
    exact getCCallable_registered info s _ hrun e he
  · intro n hn
    simp only [registeredNames, List.mem_map] at hn
    obtain ⟨e, he, rfl⟩ := hn
    have h := getCCallable_registered info s _ hrun e he
    rw [(hid e he).1] at h
    exact ⟨e.2.2, h, ((hid e he).2).symm⟩

/-! ## The closing calls -/

/-- C10: `R_init_nloptrbundled` consists of 55 calls of `R_RegisterCCallable` followed by
exactly three calls on the record `info` it was given: `R_registerRoutines` with `NULL` for
the `.C`, `.Fortran` and `.External` tables and `CallEntries` for `.Call`, then
`R_useDynamicSymbols(info, FALSE)`, then `R_forceSymbols(info, TRUE)`; there is no other call
of `R_registerRoutines`. From any state the function returns, and then the record has
`useDynamicSymbols = FALSE` and `forceSymbols = TRUE` whatever it held before; apart from
these two flags and the `.Call` symbols installed from `CallEntries` the record is
unchanged, every other record is unchanged, and the table of C-callables is the old one
with the 55 bindings added. -/
theorem C10_lookup_locked_down (info : DllInfoPtr) (s : RState) :
    (R_init_nloptrbundled info).length = 58 ∧
    (∀ c ∈ (R_init_nloptrbundled info).take 55, c.binding.isSome = true) ∧
    (R_init_nloptrbundled info).drop 55 =
      [ RCall.registerRoutines info none (some CallEntries) none none,
        RCall.useDynamicSymbols info false,
        RCall.forceSymbols info true ] ∧
    (R_init_nloptrbundled info).countP
      (fun c => match c with
        | RCall.registerRoutines _ _ _ _ _ => true
        | _ => false) = 1 ∧
    ∃ s1, run (R_init_nloptrbundled info) s = some s1 ∧
      (s1.dll info).useDynamicSymbols = false ∧
      (s1.dll info).forceSymbols = true ∧
      s1.dll info =
        { s.dll info with
          CallSymbols :=
            [{ name := "NLoptR_Optimize", fun_ := some DL_FUNC.NLoptR_Optimize, numArgs := 1 }],
          useDynamicSymbols := false,
          forceSymbols := true } ∧
      (∀ p, p ≠ info → s1.dll p = s.dll p) ∧
      s1.CCallables = (registered info).reverse ++ s.CCallables := by
  have htake : (R_init_nloptrbundled info).take 55 = (R_init_nloptrbundled 0).take 55 := rfl
  refine ⟨rfl, ?_, rfl, rfl, _, run_init info s, ?_, ?_, ?_, ?_, rfl⟩
  · rw [htake]
    decide
  · simp [setDll_same, lockedDown]
  · simp [setDll_same, lockedDown]
  · simp [setDll_same, lockedDown]
  · intro p hp
    exact setDll_other _ _ _ _ hp

/-! ## Setters and getters -/

/-- C3, as stated, fails: the specification lists the nested local optimizer among the
configuration items, `nlopt_set_local_optimizer` is registered, and no
`nlopt_get_local_optimizer` is; so it is not true that every listed item has both a setter
and a getter among the registered names. -/
theorem C3_counterexample_no_getter_for_local_optimizer :
    ("local_optimizer", false) ∈ configItems ∧
    setterName ("local_optimizer", false) = "nlopt_set_local_optimizer" ∧
    getterName ("local_optimizer", false) = "nlopt_get_local_optimizer" ∧
    "nlopt_set_local_optimizer" ∈ registeredNames 0 ∧
    "nlopt_get_local_optimizer" ∉ registeredNames 0 ∧
    ¬ (∀ info : DllInfoPtr, ∀ item ∈ configItems,
        setterName item ∈ registeredNames info ∧ getterName item ∈ registeredNames info) := by
  refine ⟨by decide, by decide, by decide, by decide, by decide, ?_⟩
  intro h
  exact absurd (h 0 ("local_optimizer", false) (by decide)).2 (by decide)

/-- C3 (amended): every configuration item the specification lists has its setter among the
registered names (`nlopt_set_X`, `nlopt_add_X` for the two kinds of constraint); the getter
`nlopt_get_X` is registered for the bounds (`lower_bounds`, `upper_bounds`), the tolerances
(`stopval`, `ftol_rel`, `ftol_abs`, `xtol_rel`, `xtol_abs`), the population and the initial
step, and for no other item: no registered getter (a name starting with "nlopt_get_") mentions
a constraint or the local optimizer. -/
theorem C3_setters_and_getters (info : DllInfoPtr) :
    (∀ item ∈ configItems, setterName item ∈ registeredNames info) ∧
    (∀ item ∈ configItems,
      (getterName item ∈ registeredNames info ↔
        item.1 ∈ ["lower_bounds", "upper_bounds", "stopval", "ftol_rel", "ftol_abs",
                  "xtol_rel", "xtol_abs", "population", "initial_step"])) ∧
    (∀ n ∈ registeredNames info, startsWith "nlopt_get_" n = true →
      mentions "constraint" n = false ∧ mentions "optimizer" n = false) := by
  rw [registeredNames_eq info]
  decide

/-- C4: for the lower and the upper bounds `R_init_nloptrbundled` registers the vector setter
and the scalar setter, and likewise for the other settings held per component (`xtol_abs`,
`initial_step`): after the function has run, from any state, each of `nlopt_set_X` and
`nlopt_set_X1` for `X` among `lower_bounds`, `upper_bounds`, `xtol_abs`, `initial_step`
resolves to the function of the same name; and the registered names that end in "1" are
exactly these four scalar setters. -/
theorem C4_vector_and_scalar_setters (info : DllInfoPtr) (s : RState) :
    (∀ x ∈ perComponentSettings,
      "nlopt_set_" ++ x ∈ registeredNames info ∧
      "nlopt_set_" ++ x ++ "1" ∈ registeredNames info) ∧
    (registeredNames info).filter (fun n => endsWith "1" n) =
      ["nlopt_set_lower_bounds1", "nlopt_set_upper_bounds1", "nlopt_set_xtol_abs1",
       "nlopt_set_initial_step1"] ∧
    ∃ s1, run (R_init_nloptrbundled info) s = some s1 ∧
      R_GetCCallable "nloptrbundled" "nlopt_set_lower_bounds" s1 =
        some DL_FUNC.nlopt_set_lower_bounds ∧
      R_GetCCallable "nloptrbundled" "nlopt_set_lower_bounds1" s1 =
        some DL_FUNC.nlopt_set_lower_bounds1 ∧
      R_GetCCallable "nloptrbundled" "nlopt_set_upper_bounds" s1 =
        some DL_FUNC.nlopt_set_upper_bounds ∧
      R_GetCCallable "nloptrbundled" "nlopt_set_upper_bounds1" s1 =
        some DL_FUNC.nlopt_set_upper_bounds1 ∧
      R_GetCCallable "nloptrbundled" "nlopt_set_xtol_abs" s1 =
        some DL_FUNC.nlopt_set_xtol_abs ∧
      R_GetCCallable "nloptrbundled" "nlopt_set_xtol_abs1" s1 =
        some DL_FUNC.nlopt_set_xtol_abs1 ∧
      R_GetCCallable "nloptrbundled" "nlopt_set_initial_step" s1 =
        some DL_FUNC.nlopt_set_initial_step ∧
      R_GetCCallable "nloptrbundled" "nlopt_set_initial_step1" s1 =
        some DL_FUNC.nlopt_set_initial_step1 ∧
      (∀ x ∈ perComponentSettings,
        (∃ f : DL_FUNC, R_GetCCallable "nloptrbundled" ("nlopt_set_" ++ x) s1 = some f ∧
          f.ident = "nlopt_set_" ++ x) ∧
        (∃ g : DL_FUNC, R_GetCCallable "nloptrbundled" ("nlopt_set_" ++ x ++ "1") s1 = some g ∧
          g.ident = "nlopt_set_" ++ x ++ "1")) := by
  have hrun := run_init info s
  have get := getCCallable_registered info s _ hrun
  have a1 := get ("nloptrbundled", "nlopt_set_lower_bounds", DL_FUNC.nlopt_set_lower_bounds)
    (by decide)
  have a2 := get ("nloptrbundled", "nlopt_set_lower_bounds1", DL_FUNC.nlopt_set_lower_bounds1)
    (by decide)
  have a3 := get ("nloptrbundled", "nlopt_set_upper_bounds", DL_FUNC.nlopt_set_upper_bounds)
    (by decide)
  have a4 := get ("nloptrbundled", "nlopt_set_upper_bounds1", DL_FUNC.nlopt_set_upper_bounds1)
    (by decide)
  have a5 := get ("nloptrbundled", "nlopt_set_xtol_abs", DL_FUNC.nlopt_set_xtol_abs)
    (by decide)
  have a6 := get ("nloptrbundled", "nlopt_set_xtol_abs1", DL_FUNC.nlopt_set_xtol_abs1)
    (by decide)
  have a7 := get ("nloptrbundled", "nlopt_set_initial_step", DL_FUNC.nlopt_set_initial_step)
    (by decide)
  have a8 := get ("nloptrbundled", "nlopt_set_initial_step1", DL_FUNC.nlopt_set_initial_step1)
    (by decide)
  rw [registeredNames_eq info]
  refine ⟨by decide, by decide, _, hrun, a1, a2, a3, a4, a5, a6, a7, a8, ?_⟩
  intro x hx
  simp only [perComponentSettings, List.mem_cons, List.mem_singleton, List.not_mem_nil,
    or_false] at hx
  rcases hx with rfl | rfl | rfl | rfl
  · exact ⟨⟨_, a1, by decide⟩, ⟨_, a2, by decide⟩⟩
  · exact ⟨⟨_, a3, by decide⟩, ⟨_, a4, by decide⟩⟩
  · exact ⟨⟨_, a5, by decide⟩, ⟨_, a6, by decide⟩⟩
  · exact ⟨⟨_, a7, by decide⟩, ⟨_, a8, by decide⟩⟩

/-- No setter for the dimension or the algorithm: the getters `nlopt_get_dimension` and
`nlopt_get_algorithm` are registered and resolve to the functions of those names,
`nlopt_set_dimension` and `nlopt_set_algorithm` are not registered, and no registered name
that starts with "nlopt_set_", "nlopt_add_" or "nlopt_remove_" mentions the dimension or the
algorithm; `nlopt_create` is registered, and the registered names that mention the dimension
or the algorithm are the two getters and `nlopt_algorithm_name`. Which parameters a
registered function takes is declared by `nlopt.h` and is not visible in `init_nloptr.c`, so
nothing is said here about the inputs of the operations. -/
theorem dimension_and_algorithm_have_no_setter (info : DllInfoPtr) (s : RState) :
    "nlopt_get_dimension" ∈ registeredNames info ∧
    "nlopt_get_algorithm" ∈ registeredNames info ∧
    "nlopt_set_dimension" ∉ registeredNames info ∧
    "nlopt_set_algorithm" ∉ registeredNames info ∧
    (∀ n ∈ registeredNames info,
      (startsWith "nlopt_set_" n || startsWith "nlopt_add_" n
        || startsWith "nlopt_remove_" n) = true →
      mentions "dimension" n = false ∧ mentions "algorithm" n = false) ∧
    (registeredNames info).filter (fun n => mentions "dimension" n || mentions "algorithm" n) =
      ["nlopt_algorithm_name", "nlopt_get_algorithm", "nlopt_get_dimension"] ∧
    "nlopt_create" ∈ registeredNames info ∧
    ∃ s1, run (R_init_nloptrbundled info) s = some s1 ∧
      R_GetCCallable "nloptrbundled" "nlopt_get_dimension" s1 =
        some DL_FUNC.nlopt_get_dimension ∧
      R_GetCCallable "nloptrbundled" "nlopt_get_algorithm" s1 =
        some DL_FUNC.nlopt_get_algorithm ∧
      R_GetCCallable "nloptrbundled" "nlopt_create" s1 = some DL_FUNC.nlopt_create := by
  have hrun := run_init info s
  have get := getCCallable_registered info s _ hrun
  have a1 := get ("nloptrbundled", "nlopt_get_dimension", DL_FUNC.nlopt_get_dimension)
    (by decide)
  have a2 := get ("nloptrbundled", "nlopt_get_algorithm", DL_FUNC.nlopt_get_algorithm)
    (by decide)
  have a3 := get ("nloptrbundled", "nlopt_create", DL_FUNC.nlopt_create) (by decide)
  rw [registeredNames_eq info]
  exact ⟨by decide, by decide, by decide, by decide, by decide, by decide, by decide,
    _, hrun, a1, a2, a3⟩

/-! ## Symmetry of the published operations -/

/-- C8: the operations published for inequality and for equality constraints mirror each
other, and so do those for minimisation and maximisation: the registered names that mention
"inequality" are `nlopt_remove_inequality_constraints`, `nlopt_add_inequality_constraint`,
`nlopt_add_precond_inequality_constraint` and `nlopt_add_inequality_mconstraint`; renaming
"inequality" to "equality" sends them, one-to-one, to four registered names, which are all the
other registered names that mention "equality"; renaming "min" to "max" sends
`nlopt_set_min_objective` and `nlopt_set_precond_min_objective` to two distinct registered
names; so the scalar, the vector-valued and the precond-aware form are published for each
kind of constraint. -/
theorem C8_inequality_equality_min_max_symmetry (info : DllInfoPtr) :
    (registeredNames info).filter (fun n => mentions "inequality" n) =
      ["nlopt_remove_inequality_constraints", "nlopt_add_inequality_constraint",
       "nlopt_add_precond_inequality_constraint", "nlopt_add_inequality_mconstraint"] ∧
    ["nlopt_remove_inequality_constraints", "nlopt_add_inequality_constraint",
     "nlopt_add_precond_inequality_constraint", "nlopt_add_inequality_mconstraint"].map
        (rename "inequality" "equality") =
      ["nlopt_remove_equality_constraints", "nlopt_add_equality_constraint",
       "nlopt_add_precond_equality_constraint", "nlopt_add_equality_mconstraint"] ∧
    ["nlopt_remove_equality_constraints", "nlopt_add_equality_constraint",
     "nlopt_add_precond_equality_constraint", "nlopt_add_equality_mconstraint"].Nodup ∧
    (∀ n ∈ ["nlopt_remove_inequality_constraints", "nlopt_add_inequality_constraint",
            "nlopt_add_precond_inequality_constraint", "nlopt_add_inequality_mconstraint"],
      n ∈ registeredNames info ∧ rename "inequality" "equality" n ∈ registeredNames info) ∧
    (registeredNames info).filter
        (fun n => mentions "equality" n && !mentions "inequality" n) =
      ["nlopt_remove_equality_constraints", "nlopt_add_equality_constraint",
       "nlopt_add_precond_equality_constraint", "nlopt_add_equality_mconstraint"] ∧
    ["nlopt_set_min_objective", "nlopt_set_precond_min_objective"].map (rename "min" "max") =
      ["nlopt_set_max_objective", "nlopt_set_precond_max_objective"] ∧
    (∀ n ∈ ["nlopt_set_min_objective", "nlopt_set_precond_min_objective"],
      n ∈ registeredNames info ∧ rename "min" "max" n ∈ registeredNames info) ∧
    (∀ kind ∈ ["inequality", "equality"],
      "nlopt_add_" ++ kind ++ "_constraint" ∈ registeredNames info ∧
      "nlopt_add_" ++ kind ++ "_mconstraint" ∈ registeredNames info ∧
      "nlopt_add_precond_" ++ kind ++ "_constraint" ∈ registeredNames info) := by
  rw [registeredNames_eq info]
  decide

/-! ## Stopping criteria -/

/-- C7: the stopping-criteria check reports one reason for a termination, chosen by the
order ForcedStop, StopvalReached, FtolReached, XtolReached, MaxevalReached, MaxtimeReached,
Failure/RoundoffLimited: in every iteration state a reason is reported exactly when its
condition holds and no condition earlier in the order does, so when several conditions hold
at once the reported reason is the first of them in the order; a reason is reported
whenever some condition holds, and two reports for the same state are equal. -/
theorem C7_first_match_wins (s : IterationState) :
    (∀ r : StopReason,
      stoppingCriteria s = some r ↔
        (conditionHolds s r = true ∧
          ∀ q : StopReason, conditionHolds s q = true → priority r ≤ priority q)) ∧
    (stoppingCriteria s = none ↔ ∀ q : StopReason, conditionHolds s q = false) ∧
    (∀ r q : StopReason, stoppingCriteria s = some r → stoppingCriteria s = some q → r = q) := by
  have hc : stoppingCriteria s =
      firstMatch s.force_stop (stopvalReached s) (ftolReached s) (xtolReached s)
        (maxevalReached s) (maxtimeReached s) s.breakdown := rfl
  have ho : ∀ r : StopReason, conditionHolds s r =
      outcome s.force_stop (stopvalReached s) (ftolReached s) (xtolReached s)
        (maxevalReached s) (maxtimeReached s) s.breakdown r := by
    intro r
    cases r <;> rfl
  refine ⟨?_, ?_, ?_⟩
  · intro r
    rw [hc]
    simp only [ho]
    exact firstMatch_spec _ _ _ _ _ _ _ r
  · rw [hc]
    simp only [ho]
    exact firstMatch_none _ _ _ _ _ _ _
  · intro r q hr hq
    rw [hr] at hq
    exact Option.some.inj hq

end Nloptr
